import Mathlib

/-!
Shallow embedding of the Mantis MCP server API-client layer
(`src/services/mantisApi.ts`) and proofs about its caching, error
handling, mutation, and SOAP-mapping behaviour.

Conventions of the embedding:
* TypeScript `Map<string, {data, timestamp}>` becomes an association list
  `Cache := List (String × CacheEntry)`; `Map.get` is first-match lookup,
  `Map.set` replaces in place or appends, `Map.clear` returns the empty list.
* `Date.now()` values are passed in explicitly as `Nat` millisecond clocks;
  each operation takes one clock value per `Date.now()` read site
  (a read-through takes the check-time and the store-time separately,
  since the network await sits between the two reads in the source).
* Network calls (`this.api.get/post/patch`, `axios.post`) are passed in as
  their outcome `Except MantisApiError _`: the axios interceptor in the
  source converts every failure of `this.api` into a `MantisApiError`
  before user code sees it, so the producer outcome type is exact.
* Each operation returns an `OpResult`: the returned-or-thrown value, the
  cache after the operation, and the number of network requests issued.
* TypeScript `number` is `Int`; values that can be `undefined` at runtime
  (optional fields, `response.data?.issue`, `issues[0]` of an empty list)
  are `Option`.
-/

namespace Mantis

/-- Pair of numeric id and display name, as in the `{id, name}` sub-objects
of the Issue/User/Project interfaces of `mantisApi.ts`. -/
structure NameId where
  id : Int
  name : String
deriving DecidableEq, Repr

/-- Reporter or handler reference: `{id, name, email}` in `mantisApi.ts`. -/
structure PersonRef where
  id : Int
  name : String
  email : String
deriving DecidableEq, Repr

/-- One element of `Issue.custom_fields`: `{field: {id, name}, value}`. -/
structure CustomFieldEntry where
  field : NameId
  value : String
deriving DecidableEq, Repr

/-- The `Issue` interface of `mantisApi.ts`: optional TypeScript fields become
`Option`. -/
structure Issue where
  id : Int
  summary : String
  description : String
  status : NameId
  project : NameId
  category : NameId
  reporter : PersonRef
  handler : Option PersonRef
  priority : Option NameId
  severity : Option NameId
  custom_fields : Option (List CustomFieldEntry)
  created_at : String
  updated_at : String
deriving DecidableEq, Repr

/-- The `User` interface of `mantisApi.ts`. -/
structure User where
  id : Int
  name : String
  email : String
  real_name : Option String
  access_level : Option NameId
  enabled : Option Bool
deriving DecidableEq, Repr

/-- The `MantisApiError` class: message, optional `statusCode`, optional raw
response body (the `any`-typed body is embedded as its serialized text). -/
structure MantisApiError where
  message : String
  statusCode : Option Nat
  response : Option String
deriving DecidableEq, Repr

/-- The three shapes an axios failure object can have when it reaches the
response interceptor registered in the `MantisApi` constructor:
`error.response` present (HTTP error status), `error.request` present with no
response (network failure), or neither (request construction failure). -/
inductive AxiosFailure where
  | httpResponse (status : Nat) (statusText : String) (data : String)
  | noResponse
  | requestSetup (message : String)
deriving DecidableEq, Repr

/-- The rejection branch of the response interceptor installed in the
`MantisApi` constructor (`mantisApi.ts` lines 154-186): each failure shape is
rethrown as a `MantisApiError`. -/
def interceptError : AxiosFailure → MantisApiError
  | .httpResponse status statusText data =>
      { message := "API error: " ++ toString status ++ " " ++ statusText
        statusCode := some status
        response := some data }
  | .noResponse =>
      { message := "No API response received"
        statusCode := some 0
        response := none }
  | .requestSetup msg =>
      { message := "Request error: " ++ msg
        statusCode := none
        response := none }

/-- The three failure kinds of the error taxonomy: HTTP response with error
status, transport failure without response, local request error. -/
inductive ErrorKind where
  | apiError
  | transportError
  | localError
deriving DecidableEq, Repr

/-- Classification of a `statusCode` field by a caller, as the spec
prescribes: `undefined` means local error, `0` means no response, a positive
status means HTTP API error. -/
def classifyStatus : Option Nat → ErrorKind
  | none => .localError
  | some 0 => .transportError
  | some (_ + 1) => .apiError

/-- The failure kind each `AxiosFailure` shape belongs to. -/
def failureKind : AxiosFailure → ErrorKind
  | .httpResponse _ _ _ => .apiError
  | .noResponse => .transportError
  | .requestSetup _ => .localError

/-- Values stored in the shared `Map<string, {data: any, ...}>` cache: user
objects, user lists, and the `{issues: Issue[]}` envelopes cached by the
issue read paths. -/
inductive ApiData where
  | user (u : User)
  | users (us : List User)
  | issuesEnv (issues : List Issue)
deriving DecidableEq, Repr

/-- Reading `data.issues` off a cached value, as `getIssues` and
`getIssueById` do; a value of any other shape yields no issues (in the source
this would be a runtime `undefined`). -/
def ApiData.issuesOf : ApiData → List Issue
  | .issuesEnv issues => issues
  | _ => []

/-- One slot of the cache map: `{data: any, timestamp: number}`. -/
structure CacheEntry where
  data : ApiData
  timestamp : Nat
deriving DecidableEq, Repr

/-- The private `cache` map of `MantisApi`, as an association list. -/
abbrev Cache := List (String × CacheEntry)

/-- Lookup in the cache map (`this.cache.get(key)`): the entry of the first
slot carrying the key, if any. -/
def Cache.get (c : Cache) (key : String) : Option CacheEntry :=
  match c with
  | [] => none
  | (k, v) :: rest => if k = key then some v else Cache.get rest key

/-- Insertion into the cache map (`this.cache.set(key, entry)`): replaces the
first slot carrying the key in place, otherwise appends at the end, matching
the observable behaviour of the JavaScript `Map` (whose keys are unique). -/
def Cache.set (c : Cache) (key : String) (e : CacheEntry) : Cache :=
  match c with
  | [] => [(key, e)]
  | (k, v) :: rest =>
      if k = key then (key, e) :: rest else (k, v) :: Cache.set rest key e

/-- The `clearCache` method (`this.cache.clear()`): every entry is removed. -/
def Cache.clear (_ : Cache) : Cache := []

/-- The configuration fields of `config` consumed by the client layer. -/
structure Config where
  CACHE_ENABLED : Bool
  CACHE_TTL_SECONDS : Nat
deriving DecidableEq, Repr

/-- Result of one Gateway operation: the value returned (or the
`MantisApiError` thrown), the cache afterwards, and how many network
requests were issued while it ran. -/
structure OpResult (α : Type) where
  result : Except MantisApiError α
  cache : Cache
  calls : Nat
deriving Repr

/-- The cache-validity check at the top of `cachedRequest`: when caching is
enabled and the entry for the key is younger than the TTL, the stored data is
fresh. The age comparison is done in `Int` exactly as JavaScript subtraction
of two clock readings. -/
def freshEntry (cfg : Config) (cache : Cache) (now : Nat) (key : String) :
    Option ApiData :=
  if cfg.CACHE_ENABLED then
    match Cache.get cache key with
    | some cd =>
        if (now : Int) - cd.timestamp < cfg.CACHE_TTL_SECONDS * 1000 then
          some cd.data
        else none
    | none => none
  else none

/-- The private `cachedRequest` wrapper (`mantisApi.ts` lines 190-221).
`now` is the `Date.now()` read during the validity check and `nowStore` the
`Date.now()` read when the response is stored; `requestFn` is the outcome of
the wrapped network call. -/
def cachedRequest (cfg : Config) (cache : Cache) (now nowStore : Nat)
    (key : String) (requestFn : Except MantisApiError ApiData) :
    OpResult ApiData :=
  match freshEntry cfg cache now key with
  | some d => { result := .ok d, cache := cache, calls := 0 }
  | none =>
    match requestFn with
    | .error e => { result := .error e, cache := cache, calls := 1 }
    | .ok v =>
        { result := .ok v
          cache :=
            if cfg.CACHE_ENABLED then Cache.set cache key ⟨v, nowStore⟩
            else cache
          calls := 1 }

/-- The `IssueSearchParams` interface: every field is optional. -/
structure IssueSearchParams where
  projectId : Option Nat
  statusId : Option Nat
  handlerId : Option Nat
  reporterId : Option Nat
  priority : Option Nat
  severity : Option Nat
  pageSize : Option Nat
  page : Option Nat
  search : Option String
  select : Option (List String)
  filterId : Option Nat
  sort : Option String
  dir : Option String
deriving DecidableEq, Repr

/-- The record with every optional parameter left out (the `{}` default of
`getIssues`). -/
def emptyParams : IssueSearchParams :=
  ⟨none, none, none, none, none, none, none, none, none, none, none, none, none⟩

/-- The JavaScript builtin `encodeURIComponent`, modelled as the identity
embedding of the string; no claim proved here depends on the particular
injective percent-encoding, only on the function being applied pointwise. -/
def encodeURIComponent (s : String) : String := s

/-- One `if (params.x) filter += ...` step for a numeric field: JavaScript
truthiness skips both an absent field and a present `0`. -/
def numField (pre : String) (o : Option Nat) : String :=
  match o with
  | some v => if v = 0 then "" else pre ++ toString v
  | none => ""

/-- One `if (params.x) filter += ...` step for a string field (the source
applies `encodeURIComponent` to the value): JavaScript truthiness skips both
an absent field and a present empty string. -/
def strField (pre : String) (o : Option String) : String :=
  match o with
  | some s => if s.isEmpty then "" else pre ++ encodeURIComponent s
  | none => ""

/-- The `params.select?.length` guarded step: an absent or empty selection
list contributes nothing, otherwise the comma join of the field names. -/
def selectField : Option (List String) → String
  | some l => if l.isEmpty then "" else "&select=" ++ String.intercalate "," l
  | none => ""

/-- The filter string built at the top of `getIssues` (`mantisApi.ts` lines
228-239), one appended fragment per present truthy parameter, in source
order. -/
def issuesFilter (params : IssueSearchParams) : String :=
  numField "&project_id=" params.projectId
    ++ numField "&status_id=" params.statusId
    ++ numField "&handler_id=" params.handlerId
    ++ numField "&reporter_id=" params.reporterId
    ++ numField "&priority=" params.priority
    ++ numField "&severity=" params.severity
    ++ strField "&search=" params.search
    ++ numField "&filter_id=" params.filterId
    ++ selectField params.select
    ++ strField "&sort=" params.sort
    ++ strField "&dir=" params.dir

/-- The effective page size of `getIssues`: `params.pageSize || 50`. -/
def effectivePageSize (params : IssueSearchParams) : Nat :=
  match params.pageSize with
  | some v => if v = 0 then 50 else v
  | none => 50

/-- The effective page of `getIssues`: `params.page || 1`. -/
def effectivePage (params : IssueSearchParams) : Nat :=
  match params.page with
  | some v => if v = 0 then 1 else v
  | none => 1

/-- The cache key of `getIssues`:
`issues-${filter}-${page}-${pageSize}`. -/
def getIssuesCacheKey (params : IssueSearchParams) : String :=
  "issues-" ++ issuesFilter params ++ "-" ++ toString (effectivePage params)
    ++ "-" ++ toString (effectivePageSize params)

/-- The `getIssues` method (`mantisApi.ts` lines 224-251): a read-through on
the derived cache key, returning the `issues` field of the envelope. The
`fetch` argument is the outcome of the wrapped `this.api.get` call. -/
def getIssues (cfg : Config) (cache : Cache) (now nowStore : Nat)
    (params : IssueSearchParams)
    (fetch : Except MantisApiError (List Issue)) : OpResult (List Issue) :=
  let r := cachedRequest cfg cache now nowStore (getIssuesCacheKey params)
    (fetch.map .issuesEnv)
  { result := r.result.map ApiData.issuesOf, cache := r.cache, calls := r.calls }

/-- The `getIssueById` method: a read-through on key `issue-${issueId}`,
returning element `[0]` of the `issues` field of the cached envelope (absent
when the list is empty, a runtime `undefined` in the source). -/
def getIssueById (cfg : Config) (cache : Cache) (now nowStore : Nat)
    (issueId : Nat) (fetch : Except MantisApiError (List Issue)) :
    OpResult (Option Issue) :=
  let r := cachedRequest cfg cache now nowStore ("issue-" ++ toString issueId)
    (fetch.map .issuesEnv)
  { result := r.result.map (fun d => d.issuesOf.head?)
    cache := r.cache
    calls := r.calls }

/-- The `getUser` method (`mantisApi.ts` lines 277-289): a falsy (zero)
`userId` throws `MantisApiError("User ID is required")` before the
read-through on key `user-${userId}` runs. -/
def getUser (cfg : Config) (cache : Cache) (now nowStore : Nat)
    (userId : Nat) (fetch : Except MantisApiError User) : OpResult ApiData :=
  if userId = 0 then
    { result := .error ⟨"User ID is required", none, none⟩
      cache := cache
      calls := 0 }
  else
    cachedRequest cfg cache now nowStore ("user-" ++ toString userId)
      (fetch.map .user)

/-- The `getUserByUsername` method (`mantisApi.ts` lines 102-129). It never
consults `config.CACHE_ENABLED` or `config.CACHE_TTL_SECONDS` (hence takes no
`Config`): the entry under `user_${username}` is served when younger than the
hard-coded 300000 ms and stored unconditionally after a successful fetch.
Failures of `this.api.get` are already `MantisApiError` (interceptor), so the
catch block rethrows them unchanged. -/
def getUserByUsername (cache : Cache) (now nowStore : Nat) (username : String)
    (fetch : Except MantisApiError User) : OpResult ApiData :=
  let cacheKey := "user_" ++ username
  let hit : Option ApiData :=
    match Cache.get cache cacheKey with
    | some cached =>
        if (now : Int) - cached.timestamp < 300000 then some cached.data
        else none
    | none => none
  match hit with
  | some d => { result := .ok d, cache := cache, calls := 0 }
  | none =>
    match fetch with
    | .error e => { result := .error e, cache := cache, calls := 1 }
    | .ok u =>
        { result := .ok (.user u)
          cache := Cache.set cache cacheKey ⟨.user u, nowStore⟩
          calls := 1 }

/-- The `createIssue` method (`mantisApi.ts` lines 320-325): posts, clears
the whole cache on success, returns `response.data.issue`; a failing post
propagates its error with the cache untouched. -/
def createIssue (cache : Cache)
    (post : Except MantisApiError (Option Issue)) : OpResult (Option Issue) :=
  match post with
  | .error e => { result := .error e, cache := cache, calls := 1 }
  | .ok issue => { result := .ok issue, cache := Cache.clear cache, calls := 1 }

/-- The `addIssueNote` method (`mantisApi.ts` lines 531-536): posts the note,
clears the whole cache on success, returns the raw response body; a failing
post propagates its error with the cache untouched. -/
def addIssueNote (cache : Cache)
    (post : Except MantisApiError String) : OpResult String :=
  match post with
  | .error e => { result := .error e, cache := cache, calls := 1 }
  | .ok d => { result := .ok d, cache := Cache.clear cache, calls := 1 }

/-- The `updateIssue` method (`mantisApi.ts` lines 328-342). `patch` is the
outcome of `this.api.patch`; its `.ok` payload is `response.data?.issue`.
On success the cache is cleared and a present echoed issue returned; when the
echo is absent, or when the patch itself threw (the catch block clears the
cache and swallows the error), the method falls back to `getIssueById`. -/
def updateIssue (cfg : Config) (cache : Cache) (now nowStore : Nat)
    (issueId : Nat) (patch : Except MantisApiError (Option Issue))
    (fetch : Except MantisApiError (List Issue)) : OpResult (Option Issue) :=
  match patch with
  | .ok (some issue) =>
      { result := .ok (some issue), cache := Cache.clear cache, calls := 1 }
  | .ok none =>
      let r := getIssueById cfg (Cache.clear cache) now nowStore issueId fetch
      { r with calls := r.calls + 1 }
  | .error _ =>
      let r := getIssueById cfg (Cache.clear cache) now nowStore issueId fetch
      { r with calls := r.calls + 1 }

/-- JavaScript truthiness of the optional `note` string argument of
`changeIssueStatus`: absent and empty strings are falsy. -/
def strTruthy : Option String → Bool
  | some s => !s.isEmpty
  | none => false

/-- The `changeIssueStatus` method (`mantisApi.ts` lines 345-366): a truthy
`note` is posted first through `addIssueNote` (its failure propagates), then
the status patch runs with the same clear-and-fallback structure as
`updateIssue`. `notePost` is the outcome of the note post, `patch` the
outcome of `this.api.patch`, `fetch` the producer of the fallback refetch. -/
def changeIssueStatus (cfg : Config) (cache : Cache) (now nowStore : Nat)
    (issueId : Nat) (note : Option String)
    (notePost : Except MantisApiError String)
    (patch : Except MantisApiError (Option Issue))
    (fetch : Except MantisApiError (List Issue)) : OpResult (Option Issue) :=
  let core : Cache → OpResult (Option Issue) := fun c =>
    match patch with
    | .ok (some issue) =>
        { result := .ok (some issue), cache := Cache.clear c, calls := 1 }
    | .ok none =>
        let r := getIssueById cfg (Cache.clear c) now nowStore issueId fetch
        { r with calls := r.calls + 1 }
    | .error _ =>
        let r := getIssueById cfg (Cache.clear c) now nowStore issueId fetch
        { r with calls := r.calls + 1 }
  if strTruthy note then
    let rn := addIssueNote cache notePost
    match rn.result with
    | .error e => { result := .error e, cache := rn.cache, calls := rn.calls }
    | .ok _ =>
        let r := core rn.cache
        { r with calls := r.calls + rn.calls }
  else
    core cache

/-- A scalar value as it comes out of the XML parse: a string or a number. -/
inductive SoapVal where
  | str (v : String)
  | num (v : Int)
deriving DecidableEq, Repr

/-- Value of all-decimal-digit text, most significant digit first. -/
def digitsToNat (cs : List Char) : Nat :=
  cs.foldl (fun acc c => acc * 10 + (c.toNat - 48)) 0

/-- Core of the JavaScript `Number` conversion, over the character list of
the string. -/
def jsNumberOfChars (cs : List Char) : Option Int :=
  match cs with
  | [] => some 0
  | c :: rest =>
      if c = '-' && !rest.isEmpty && rest.all Char.isDigit then
        some (-(digitsToNat rest : Int))
      else if (c :: rest).all Char.isDigit then some (digitsToNat (c :: rest))
      else none

/-- The JavaScript builtin `Number` on a string, restricted to the inputs the
SOAP mapping meets: the empty string is `0`, a plain decimal integer (with an
optional leading minus sign) is its value, anything else is `NaN`, embedded
here as `none`. Fractional, hexadecimal and whitespace-padded forms are out
of scope of the claims and omitted. -/
def jsNumberOfString (s : String) : Option Int :=
  jsNumberOfChars s.data

/-- `Number(x)` on a parsed scalar. -/
def jsNumber : SoapVal → Option Int
  | .num v => some v
  | .str v => jsNumberOfString v

/-- The `Number(...) || 0` idiom of `mapSoapIssue`: a missing value or a
non-numeric string (`NaN`) becomes `0`; a numeric value is kept (a zero value
also yields `0` through the `||`). -/
def numOr0 (o : Option SoapVal) : Int :=
  match o.bind jsNumber with
  | some v => v
  | none => 0

/-- A node that the XML parser may deliver either as a single object or as an
array of objects, as `searchIssues` and the `custom_fields` mapping must
handle. -/
inductive OneOrMany (α : Type) where
  | one (x : α)
  | many (xs : List α)
deriving DecidableEq, Repr

/-- The `Array.isArray(x) ? x : [x]` normalization. -/
def OneOrMany.toList {α : Type} : OneOrMany α → List α
  | .one x => [x]
  | .many xs => xs

/-- A `{id?, name?, email?}` sub-object of a wire issue (status, project,
reporter, handler, priority, severity nodes). -/
structure SoapRef where
  id : Option SoapVal
  name : Option String
  email : Option String
deriving DecidableEq, Repr

/-- A wire custom-field node: `{field?: {id?, name?}, value?}`. -/
structure SoapCustomField where
  field : Option SoapRef
  value : Option String
deriving DecidableEq, Repr

/-- One wire item of the SOAP search result, with every field optional as the
XML parse makes it. -/
structure SoapItem where
  id : Option SoapVal
  summary : Option String
  description : Option String
  status : Option SoapRef
  project : Option SoapRef
  reporter : Option SoapRef
  handler : Option SoapRef
  priority : Option SoapRef
  severity : Option SoapRef
  category : Option String
  custom_fields : Option (OneOrMany SoapCustomField)
  date_submitted : Option String
  last_updated : Option String
deriving DecidableEq, Repr

/-- One custom-field mapping step inside `mapSoapIssue`. -/
def mapSoapCustomField (cf : SoapCustomField) : CustomFieldEntry :=
  { field :=
      { id := numOr0 (cf.field.bind SoapRef.id)
        name := (cf.field.bind SoapRef.name).getD "" }
    value := cf.value.getD "" }

/-- The private `mapSoapIssue` method (`mantisApi.ts` lines 486-528): numeric
fields go through `Number(...) || 0`, string fields through `x || ""`, the
optional sub-objects are mapped only when present (`item.handler ? ... :
undefined`), and `custom_fields` is array-normalized before mapping. -/
def mapSoapIssue (item : SoapItem) : Issue :=
  { id := numOr0 item.id
    summary := item.summary.getD ""
    description := item.description.getD ""
    status :=
      { id := numOr0 (item.status.bind SoapRef.id)
        name := (item.status.bind SoapRef.name).getD "" }
    project :=
      { id := numOr0 (item.project.bind SoapRef.id)
        name := (item.project.bind SoapRef.name).getD "" }
    category := { id := 0, name := item.category.getD "" }
    reporter :=
      { id := numOr0 (item.reporter.bind SoapRef.id)
        name := (item.reporter.bind SoapRef.name).getD ""
        email := (item.reporter.bind SoapRef.email).getD "" }
    handler := item.handler.map (fun h =>
      { id := numOr0 h.id
        name := h.name.getD ""
        email := h.email.getD "" })
    priority := item.priority.map (fun p =>
      { id := numOr0 p.id, name := p.name.getD "" })
    severity := item.severity.map (fun s =>
      { id := numOr0 s.id, name := s.name.getD "" })
    custom_fields := item.custom_fields.map (fun cfs =>
      cfs.toList.map mapSoapCustomField)
    created_at := item.date_submitted.getD ""
    updated_at := item.last_updated.getD "" }

/-- A SOAP `Fault` node; `faultstring` may itself be missing. -/
structure SoapFault where
  faultstring : Option String
deriving DecidableEq, Repr

/-- The two nodes `searchIssues` inspects after parsing a 2xx SOAP response:
`Envelope.Body.mc_filter_search_issuesResponse.return` and
`Envelope.Body.Fault` (namespace prefixes already stripped). -/
structure ParsedBody where
  ret : Option (OneOrMany SoapItem)
  fault : Option SoapFault
deriving DecidableEq, Repr

/-- The response handling of `searchIssues` (`mantisApi.ts` lines 450-467):
a falsy result node falls through to the fault check, where a present fault
throws `MantisApiError` carrying the fault string (defaulting to
`Unknown error`) and an absent one yields the empty list; a present result is
array-normalized and mapped through `mapSoapIssue`. The whole parsed body may
be absent (`parsed?.Envelope?.Body` missing). -/
def searchIssuesHandle (body : Option ParsedBody) :
    Except MantisApiError (List Issue) :=
  match body.bind ParsedBody.ret with
  | none =>
    match body.bind ParsedBody.fault with
    | some fault =>
        .error ⟨"SOAP fault: " ++ fault.faultstring.getD "Unknown error",
          none, none⟩
    | none => .ok []
  | some result => .ok (result.toList.map mapSoapIssue)

/-- One optional parameter of `getIssues` as supplied at a call site, used to
express that the derived cache key does not depend on the order in which the
optional fields of the parameter object were written. -/
inductive ParamField where
  | projectId (v : Nat)
  | statusId (v : Nat)
  | handlerId (v : Nat)
  | reporterId (v : Nat)
  | priority (v : Nat)
  | severity (v : Nat)
  | pageSize (v : Nat)
  | page (v : Nat)
  | search (v : String)
  | select (v : List String)
  | filterId (v : Nat)
  | sort (v : String)
  | dir (v : String)
deriving DecidableEq, Repr

/-- Setting one named field of the parameter record. -/
def applyField (p : IssueSearchParams) : ParamField → IssueSearchParams
  | .projectId v => { p with projectId := some v }
  | .statusId v => { p with statusId := some v }
  | .handlerId v => { p with handlerId := some v }
  | .reporterId v => { p with reporterId := some v }
  | .priority v => { p with priority := some v }
  | .severity v => { p with severity := some v }
  | .pageSize v => { p with pageSize := some v }
  | .page v => { p with page := some v }
  | .search v => { p with search := some v }
  | .select v => { p with select := some v }
  | .filterId v => { p with filterId := some v }
  | .sort v => { p with sort := some v }
  | .dir v => { p with dir := some v }

/-- Which named field a supplied parameter sets. -/
def fieldTag : ParamField → Nat
  | .projectId _ => 0
  | .statusId _ => 1
  | .handlerId _ => 2
  | .reporterId _ => 3
  | .priority _ => 4
  | .severity _ => 5
  | .pageSize _ => 6
  | .page _ => 7
  | .search _ => 8
  | .select _ => 9
  | .filterId _ => 10
  | .sort _ => 11
  | .dir _ => 12

/-- The parameter record denoted by a list of supplied fields (later
occurrences of the same field overwrite earlier ones, as in a JavaScript
object literal). -/
def paramsOfList (l : List ParamField) : IssueSearchParams :=
  l.foldl applyField emptyParams

/-! Sample values used by witness and counterexample theorems. -/

/-- A sample configuration with caching enabled and the default 300 s TTL. -/
def cfgOn : Config := ⟨true, 300⟩

/-- A sample configuration with caching globally disabled. -/
def cfgOff : Config := ⟨false, 300⟩

/-- A sample user record. -/
def sampleUser : User := ⟨7, "alice", "alice@example.org", none, none, none⟩

/-- A sample issue record. -/
def sampleIssue : Issue :=
  { id := 5, summary := "crash", description := "boom"
    status := ⟨1, "new"⟩, project := ⟨3, "proj"⟩, category := ⟨0, "general"⟩
    reporter := ⟨2, "bob", "bob@example.org"⟩
    handler := none, priority := none, severity := none, custom_fields := none
    created_at := "2025-01-01T00:00:00Z", updated_at := "2025-01-02T00:00:00Z" }

/-- The transport-failure error the interceptor produces. -/
def transportErr : MantisApiError := interceptError .noResponse

/-! Lemmas about the cache map. -/

/-- Looking up the key just set finds the new entry. -/
theorem Cache.get_set_self (c : Cache) (key : String) (e : CacheEntry) :
    Cache.get (Cache.set c key e) key = some e := by
  induction c with
  | nil => simp [Cache.get, Cache.set]
  | cons hd tl ih =>
      obtain ⟨k, v⟩ := hd
      by_cases hk : k = key
      · simp [Cache.get, Cache.set, hk]
      · simp [Cache.get, Cache.set, hk, ih]

/-- Looking up a different key is unaffected by a set. -/
theorem Cache.get_set_ne (c : Cache) (key key' : String) (e : CacheEntry)
    (h : key' ≠ key) :
    Cache.get (Cache.set c key e) key' = Cache.get c key' := by
  have h' : key ≠ key' := Ne.symm h
  induction c with
  | nil => simp [Cache.get, Cache.set, h']
  | cons hd tl ih =>
      obtain ⟨k, v⟩ := hd
      by_cases hk : k = key
      · subst hk
        simp [Cache.get, Cache.set, h']
      · by_cases hk' : k = key'
        · simp [Cache.get, Cache.set, hk, hk', h]
        · simp [Cache.get, Cache.set, hk, hk', ih]

/-- The empty cache holds nothing. -/
theorem Cache.get_nil (key : String) : Cache.get ([] : Cache) key = none := rfl

/-! Claim C1: read-through contract of cachedRequest. -/

/-- C1 (amended): with caching enabled and a live (within-TTL) entry present
for the key, `cachedRequest` returns the stored value with no producer call
and the cache untouched; on a miss it invokes the producer once, returns its
result, and stores it under the key with the store-time clock when caching is
enabled (nothing is stored when caching is disabled); consequently two
consecutive calls with the same key, caching enabled and no TTL expiry
between them invoke the producer exactly once, the second being served from
the entry the first stored. -/
theorem cachedRequest_read_through (cfg : Config) (cache : Cache)
    (t₀ t₀' t₁ t₁' : Nat) (key : String) (v : ApiData)
    (req req₂ : Except MantisApiError ApiData) :
    (∀ en, cfg.CACHE_ENABLED = true → Cache.get cache key = some en →
      (t₀ : Int) - en.timestamp < cfg.CACHE_TTL_SECONDS * 1000 →
      cachedRequest cfg cache t₀ t₀' key req = ⟨.ok en.data, cache, 0⟩)
    ∧ (freshEntry cfg cache t₀ key = none →
      cachedRequest cfg cache t₀ t₀' key (.ok v) =
        ⟨.ok v,
          if cfg.CACHE_ENABLED then Cache.set cache key ⟨v, t₀'⟩ else cache,
          1⟩)
    ∧ (cfg.CACHE_ENABLED = true → freshEntry cfg cache t₀ key = none →
      (t₁ : Int) - t₀' < cfg.CACHE_TTL_SECONDS * 1000 →
      (cachedRequest cfg cache t₀ t₀' key (.ok v)).calls = 1 ∧
      cachedRequest cfg (cachedRequest cfg cache t₀ t₀' key (.ok v)).cache
          t₁ t₁' key req₂ =
        ⟨.ok v, (cachedRequest cfg cache t₀ t₀' key (.ok v)).cache, 0⟩) := by
  refine ⟨?_, ?_, ?_⟩
  · intro en hen hget hage
    simp [cachedRequest, freshEntry, hen, hget, hage]
  · intro hmiss
    simp [cachedRequest, hmiss]
  · intro hen hmiss hage
    have hfirst :
        cachedRequest cfg cache t₀ t₀' key (.ok v) =
          ⟨.ok v, Cache.set cache key ⟨v, t₀'⟩, 1⟩ := by
      simp [cachedRequest, hmiss, hen]
    rw [hfirst]
    refine ⟨rfl, ?_⟩
    simp [cachedRequest, freshEntry, hen, Cache.get_set_self, hage]

/-- C1 counterexample: with caching globally disabled, the producer is
invoked (the otherwise-branch runs) yet its result is not stored under the
key, contradicting the claim that the otherwise-branch always stores the
producer result. -/
theorem cachedRequest_disabled_no_store_cex :
    (cachedRequest cfgOff [] 0 0 "k" (.ok (.user sampleUser))).calls = 1 ∧
    Cache.get (cachedRequest cfgOff [] 0 0 "k" (.ok (.user sampleUser))).cache
      "k" = none := by
  exact ⟨rfl, rfl⟩

/-- C1 witness: after a first miss at time 0 stored at time 5, a second call
at time 100 is served from the cache even though its own producer would
fail. -/
theorem cachedRequest_read_through_witness :
    cachedRequest cfgOn
        (cachedRequest cfgOn [] 0 5 "k" (.ok (.user sampleUser))).cache
        100 100 "k" (.error transportErr) =
      ⟨.ok (.user sampleUser),
        (cachedRequest cfgOn [] 0 5 "k" (.ok (.user sampleUser))).cache, 0⟩ :=
  ((cachedRequest_read_through cfgOn [] 0 5 100 100 "k" (.user sampleUser)
      (.ok (.user sampleUser)) (.error transportErr)).2.2 rfl rfl
    (by decide)).2

/-! Claim C2: the interceptor error taxonomy. -/

/-- C2: every failure leaving the response interceptor is one
`MantisApiError`, and inspecting `statusCode` recovers the failure kind
exactly (undefined = local error, 0 = no response, positive = HTTP status);
in the HTTP case the error carries the status and the raw response body. -/
theorem interceptError_taxonomy (f : AxiosFailure)
    (h : ∀ status statusText data,
      f = .httpResponse status statusText data → 0 < status) :
    classifyStatus (interceptError f).statusCode = failureKind f ∧
    (∀ status statusText data, f = .httpResponse status statusText data →
      (interceptError f).statusCode = some status ∧
      (interceptError f).response = some data) := by
  cases f with
  | httpResponse st stx d =>
      have hst := h st stx d rfl
      refine ⟨?_, ?_⟩
      · obtain ⟨n, rfl⟩ : ∃ n, st = n + 1 := ⟨st - 1, by omega⟩
        rfl
      · intro s sx dd heq
        cases heq
        exact ⟨rfl, rfl⟩
  | noResponse =>
      exact ⟨rfl, by intro s sx dd heq; cases heq⟩
  | requestSetup m =>
      exact ⟨rfl, by intro s sx dd heq; cases heq⟩

/-- C2 witness: a 404 response maps to the API-error kind with status 404 and
the raw body preserved. -/
theorem interceptError_taxonomy_witness :
    classifyStatus
        (interceptError (.httpResponse 404 "Not Found" "nf")).statusCode =
      .apiError ∧
    (interceptError (.httpResponse 404 "Not Found" "nf")).statusCode =
      some 404 ∧
    (interceptError (.httpResponse 404 "Not Found" "nf")).response =
      some "nf" := by
  have h := interceptError_taxonomy (.httpResponse 404 "Not Found" "nf")
    (fun a b c heq => by cases heq; decide)
  exact ⟨h.1, (h.2 404 "Not Found" "nf" rfl).1, (h.2 404 "Not Found" "nf" rfl).2⟩

/-! Claims C3, C4, C5: mutation paths. -/

/-- A cleared cache holds nothing. -/
theorem Cache.get_clear (c : Cache) (k : String) :
    Cache.get (Cache.clear c) k = none := rfl

/-- The validity check finds nothing in an empty cache. -/
theorem freshEntry_nil (cfg : Config) (now : Nat) (key : String) :
    freshEntry cfg [] now key = none := by
  simp [freshEntry, Cache.get]

/-- A refetch starting from an empty cache writes at most the slot of the
fetched issue: every other key stays absent. -/
theorem getIssueById_no_other_keys (cfg : Config) (now nowStore : Nat)
    (issueId : Nat) (fetch : Except MantisApiError (List Issue)) (k : String)
    (hk : k ≠ "issue-" ++ toString issueId) :
    Cache.get (getIssueById cfg [] now nowStore issueId fetch).cache k
      = none := by
  cases fetch with
  | error e =>
      simp [getIssueById, cachedRequest, freshEntry_nil, Except.map, Cache.get]
  | ok l =>
      by_cases hc : cfg.CACHE_ENABLED
      · simp [getIssueById, cachedRequest, freshEntry_nil, Except.map, hc,
          Cache.get_set_ne _ _ _ _ hk, Cache.get]
      · simp [getIssueById, cachedRequest, freshEntry_nil, Except.map, hc,
          Cache.get]

/-- C3 (amended): every mutating operation removes all cache entries that
existed before it ran. After `createIssue` and `addIssueNote` complete the
cache is empty; after `updateIssue` and `changeIssueStatus` the cache is
empty except possibly one fresh slot for the re-fetched issue written by the
fallback refetch, so a subsequent read of any other key must invoke its
producer again. -/
theorem mutations_clear_prior_entries (cfg : Config) (cache : Cache)
    (now nowStore : Nat) (issueId : Nat)
    (patch : Except MantisApiError (Option Issue))
    (fetch : Except MantisApiError (List Issue))
    (post : Except MantisApiError (Option Issue))
    (notePost : Except MantisApiError String)
    (noteText : String) (k : String) :
    (∀ d, post = .ok d → (createIssue cache post).cache = [])
    ∧ (∀ d, notePost = .ok d → (addIssueNote cache notePost).cache = [])
    ∧ (k ≠ "issue-" ++ toString issueId →
        Cache.get
          (updateIssue cfg cache now nowStore issueId patch fetch).cache k
          = none)
    ∧ (k ≠ "issue-" ++ toString issueId →
        Cache.get
          (changeIssueStatus cfg cache now nowStore issueId none notePost
            patch fetch).cache k = none)
    ∧ (k ≠ "issue-" ++ toString issueId → ¬noteText.isEmpty →
        ∀ d, notePost = .ok d →
        Cache.get
          (changeIssueStatus cfg cache now nowStore issueId (some noteText)
            notePost patch fetch).cache k = none) := by
  refine ⟨?_, ?_, ?_, ?_, ?_⟩
  · intro d hd; subst hd; rfl
  · intro d hd; subst hd; rfl
  · intro hk
    cases patch with
    | ok echo =>
        cases echo with
        | some i => simp [updateIssue, Cache.clear, Cache.get]
        | none =>
            simpa [updateIssue, Cache.clear] using
              getIssueById_no_other_keys cfg now nowStore issueId fetch k hk
    | error e =>
        simpa [updateIssue, Cache.clear] using
          getIssueById_no_other_keys cfg now nowStore issueId fetch k hk
  · intro hk
    cases patch with
    | ok echo =>
        cases echo with
        | some i => simp [changeIssueStatus, strTruthy, Cache.clear, Cache.get]
        | none =>
            simpa [changeIssueStatus, strTruthy, Cache.clear] using
              getIssueById_no_other_keys cfg now nowStore issueId fetch k hk
    | error e =>
        simpa [changeIssueStatus, strTruthy, Cache.clear] using
          getIssueById_no_other_keys cfg now nowStore issueId fetch k hk
  · intro hk hnote d hd
    subst hd
    cases patch with
    | ok echo =>
        cases echo with
        | some i =>
            simp [changeIssueStatus, strTruthy, hnote, addIssueNote,
              Cache.clear, Cache.get]
        | none =>
            simpa [changeIssueStatus, strTruthy, hnote, addIssueNote,
              Cache.clear] using
              getIssueById_no_other_keys cfg now nowStore issueId fetch k hk
    | error e =>
        simpa [changeIssueStatus, strTruthy, hnote, addIssueNote,
          Cache.clear] using
          getIssueById_no_other_keys cfg now nowStore issueId fetch k hk

/-- C3 counterexample: an update that succeeds without echoing the issue
(caching enabled) completes via the fallback refetch and leaves the cache
non-empty — the freshly refetched issue is cached, and a subsequent read of
it issues no network request. This contradicts the claim that the entire
cache is empty after every mutating operation. -/
theorem mutation_fallback_leaves_entry_cex :
    (updateIssue cfgOn [("user-1", ⟨.user sampleUser, 0⟩)] 10 10 5
      (.ok none) (.ok [sampleIssue])).result = .ok (some sampleIssue) ∧
    (updateIssue cfgOn [("user-1", ⟨.user sampleUser, 0⟩)] 10 10 5
      (.ok none) (.ok [sampleIssue])).cache ≠ [] ∧
    (getIssueById cfgOn
      (updateIssue cfgOn [("user-1", ⟨.user sampleUser, 0⟩)] 10 10 5
        (.ok none) (.ok [sampleIssue])).cache
      11 11 5 (.error transportErr)).calls = 0 := by
  refine ⟨rfl, ?_, rfl⟩
  intro h
  exact List.noConfusion
    (show ([("issue-5", (⟨.issuesEnv [sampleIssue], 10⟩ : CacheEntry))] :
      Cache) = [] from h)

/-- C3 witness: a cached project-users entry is gone after a create, and a
non-refetched key is unreadable after an echo-less update. -/
theorem mutations_clear_prior_entries_witness :
    (createIssue [("projects", ⟨.users [sampleUser], 0⟩)]
      (.ok (some sampleIssue))).cache = [] ∧
    Cache.get
      (updateIssue cfgOn [("user-1", ⟨.user sampleUser, 0⟩)] 10 10 5
        (.ok none) (.ok [sampleIssue])).cache "user-1" = none := by
  refine ⟨?_, ?_⟩
  · exact (mutations_clear_prior_entries cfgOn
      [("projects", ⟨.users [sampleUser], 0⟩)] 0 0 5 (.ok none) (.ok [])
      (.ok (some sampleIssue)) (.ok "") "" "user-1").1 (some sampleIssue) rfl
  · exact (mutations_clear_prior_entries cfgOn
      [("user-1", ⟨.user sampleUser, 0⟩)] 10 10 5 (.ok none)
      (.ok [sampleIssue]) (.ok (some sampleIssue)) (.ok "") "" "user-1").2.2.1
      (by decide)

/-- C4 counterexample: a transport error (statusCode 0) on the PATCH of
`updateIssue` does not propagate — the catch block swallows it and the call
returns the refetched issue. -/
theorem update_swallows_patch_error_cex :
    (updateIssue cfgOn [] 0 0 5 (.error transportErr)
      (.ok [sampleIssue])).result = .ok (some sampleIssue) ∧
    (updateIssue cfgOn [] 0 0 5 (.error transportErr)
      (.ok [sampleIssue])).result ≠ .error transportErr := by
  have h : (updateIssue cfgOn [] 0 0 5 (.error transportErr)
      (.ok [sampleIssue])).result = .ok (some sampleIssue) := rfl
  exact ⟨h, by rw [h]; exact fun hh => Except.noConfusion hh⟩

/-- C4 (amended): transport and API errors propagate from `createIssue`,
`addIssueNote` and the note-posting step of `changeIssueStatus`; a failure of
the PATCH inside `updateIssue` (and `changeIssueStatus`) is swallowed and
recovered by the fallback refetch, the caller seeing an error only when the
refetch itself also fails. -/
theorem mutation_error_propagation (cfg : Config) (cache : Cache)
    (now nowStore : Nat) (issueId : Nat) (e e' : MantisApiError)
    (l : List Issue) (noteText : String)
    (patch : Except MantisApiError (Option Issue))
    (fetch : Except MantisApiError (List Issue))
    (notePost : Except MantisApiError String) :
    (createIssue cache (.error e)).result = .error e
    ∧ (addIssueNote cache (.error e)).result = .error e
    ∧ (¬noteText.isEmpty →
        (changeIssueStatus cfg cache now nowStore issueId (some noteText)
          (.error e) patch fetch).result = .error e)
    ∧ (updateIssue cfg cache now nowStore issueId (.error e) (.ok l)).result
        = .ok l.head?
    ∧ (updateIssue cfg cache now nowStore issueId (.error e)
        (.error e')).result = .error e'
    ∧ (changeIssueStatus cfg cache now nowStore issueId none notePost
        (.error e) (.ok l)).result = .ok l.head?
    ∧ (changeIssueStatus cfg cache now nowStore issueId none notePost
        (.error e) (.error e')).result = .error e'
    ∧ (¬noteText.isEmpty → ∀ d, notePost = .ok d →
        (changeIssueStatus cfg cache now nowStore issueId (some noteText)
          notePost (.error e) (.ok l)).result = .ok l.head?)
    ∧ (¬noteText.isEmpty → ∀ d, notePost = .ok d →
        (changeIssueStatus cfg cache now nowStore issueId (some noteText)
          notePost (.error e) (.error e')).result = .error e') := by
  refine ⟨rfl, rfl, ?_, ?_, ?_, ?_, ?_, ?_, ?_⟩
  · intro hnote
    simp [changeIssueStatus, strTruthy, hnote, addIssueNote]
  · simp [updateIssue, getIssueById, cachedRequest, freshEntry_nil,
      Except.map, ApiData.issuesOf, Cache.clear]
  · simp [updateIssue, getIssueById, cachedRequest, freshEntry_nil,
      Except.map, Cache.clear]
  · simp [changeIssueStatus, strTruthy, getIssueById, cachedRequest,
      freshEntry_nil, Except.map, ApiData.issuesOf, Cache.clear]
  · simp [changeIssueStatus, strTruthy, getIssueById, cachedRequest,
      freshEntry_nil, Except.map, Cache.clear]
  · intro hnote d hd
    subst hd
    simp [changeIssueStatus, strTruthy, hnote, addIssueNote, getIssueById,
      cachedRequest, freshEntry_nil, Except.map, ApiData.issuesOf, Cache.clear]
  · intro hnote d hd
    subst hd
    simp [changeIssueStatus, strTruthy, hnote, addIssueNote, getIssueById,
      cachedRequest, freshEntry_nil, Except.map, Cache.clear]

/-- C4 witness: a transport error on the note post of a status change with a
note propagates to the caller; with the note posted successfully, a
transport error on the PATCH of the same status change is swallowed and the
refetched issue returned, the caller seeing an error only when the refetch
itself also fails. -/
theorem mutation_error_propagation_witness :
    (changeIssueStatus cfgOn [] 0 0 5 (some "please retest")
      (.error transportErr) (.ok (some sampleIssue)) (.ok [])).result
      = .error transportErr ∧
    (changeIssueStatus cfgOn [] 0 0 5 (some "please retest") (.ok "noted")
      (.error transportErr) (.ok [sampleIssue])).result
      = .ok (some sampleIssue) ∧
    (changeIssueStatus cfgOn [] 0 0 5 (some "please retest") (.ok "noted")
      (.error transportErr)
      (.error (interceptError (.httpResponse 500 "Server Error" "b")))).result
      = .error (interceptError (.httpResponse 500 "Server Error" "b")) := by
  refine ⟨?_, ?_, ?_⟩
  · exact (mutation_error_propagation cfgOn [] 0 0 5 transportErr transportErr
      [] "please retest" (.ok (some sampleIssue)) (.ok [])
      (.ok "noted")).2.2.1 (by decide)
  · exact (mutation_error_propagation cfgOn [] 0 0 5 transportErr transportErr
      [sampleIssue] "please retest" (.ok (some sampleIssue)) (.ok [])
      (.ok "noted")).2.2.2.2.2.2.2.1 (by decide) "noted" rfl
  · exact (mutation_error_propagation cfgOn [] 0 0 5 transportErr
      (interceptError (.httpResponse 500 "Server Error" "b"))
      [sampleIssue] "please retest" (.ok (some sampleIssue)) (.ok [])
      (.ok "noted")).2.2.2.2.2.2.2.2 (by decide) "noted" rfl

/-- C5: `updateIssue` (and likewise the status change) returns the issue
echoed by the PATCH response when present; when the echo is absent or the
PATCH call fails, it falls back to re-fetching the issue by id and returns
that current server-side state instead of raising an error. -/
theorem update_returns_echo_or_refetch (cfg : Config) (cache : Cache)
    (now nowStore : Nat) (issueId : Nat) (i : Issue) (l : List Issue)
    (e : MantisApiError) (fetch : Except MantisApiError (List Issue))
    (notePost : Except MantisApiError String) :
    (updateIssue cfg cache now nowStore issueId (.ok (some i)) fetch).result
        = .ok (some i)
    ∧ (updateIssue cfg cache now nowStore issueId (.ok none) (.ok l)).result
        = .ok l.head?
    ∧ (updateIssue cfg cache now nowStore issueId (.error e) (.ok l)).result
        = .ok l.head?
    ∧ (changeIssueStatus cfg cache now nowStore issueId none notePost
        (.ok (some i)) fetch).result = .ok (some i)
    ∧ (changeIssueStatus cfg cache now nowStore issueId none notePost
        (.ok none) (.ok l)).result = .ok l.head?
    ∧ (changeIssueStatus cfg cache now nowStore issueId none notePost
        (.error e) (.ok l)).result = .ok l.head? := by
  refine ⟨rfl, ?_, ?_, rfl, ?_, ?_⟩ <;>
    simp [updateIssue, changeIssueStatus, strTruthy, getIssueById,
      cachedRequest, freshEntry_nil, Except.map, ApiData.issuesOf, Cache.clear]

/-! Claim C6: SOAP response handling. -/

/-- C6: when the result node is absent and a fault node is present,
`searchIssues` raises the typed error carrying the fault string; when both
nodes are absent (or the whole body is missing) it returns the empty list;
a present single-object result normalizes to a one-element list. -/
theorem searchIssues_fault_empty_normalize (fs : Option String)
    (item : SoapItem) (fault : Option SoapFault) :
    searchIssuesHandle (some ⟨none, some ⟨fs⟩⟩)
        = .error ⟨"SOAP fault: " ++ fs.getD "Unknown error", none, none⟩
    ∧ searchIssuesHandle (some ⟨none, none⟩) = .ok []
    ∧ searchIssuesHandle none = .ok []
    ∧ searchIssuesHandle (some ⟨some (.one item), fault⟩)
        = .ok [mapSoapIssue item] := by
  exact ⟨rfl, rfl, rfl, rfl⟩

/-! Claim C7: the getIssues cache key is order independent. -/

/-- Setting two different named fields commutes. -/
theorem applyField_comm (p : IssueSearchParams) (a b : ParamField)
    (h : fieldTag a ≠ fieldTag b) :
    applyField (applyField p a) b = applyField (applyField p b) a := by
  cases a <;> cases b <;> first | rfl | exact absurd rfl h

/-- In a list of supplied fields with pairwise distinct names, two members
with the same name are one and the same. -/
theorem tag_inj_of_pairwise {l : List ParamField}
    (hd : l.Pairwise (fun a b => fieldTag a ≠ fieldTag b)) :
    ∀ x ∈ l, ∀ y ∈ l, fieldTag x = fieldTag y → x = y := by
  induction l with
  | nil => intro x hx; cases hx
  | cons a t ih =>
      rcases List.pairwise_cons.mp hd with ⟨ha, ht⟩
      intro x hx y hy hxy
      rcases List.mem_cons.mp hx with rfl | hx'
      · rcases List.mem_cons.mp hy with rfl | hy'
        · rfl
        · exact absurd hxy (ha y hy')
      · rcases List.mem_cons.mp hy with rfl | hy'
        · exact absurd hxy.symm (ha x hx')
        · exact ih ht x hx' y hy' hxy

/-- Reordering a duplicate-free list of supplied fields yields the same
parameter record. -/
theorem paramsOfList_perm (l₁ l₂ : List ParamField) (hp : l₁.Perm l₂)
    (hd : l₁.Pairwise (fun a b => fieldTag a ≠ fieldTag b)) :
    paramsOfList l₁ = paramsOfList l₂ := by
  unfold paramsOfList
  refine hp.foldl_eq' (fun x hx y hy z => ?_) emptyParams
  by_cases hxy : fieldTag x = fieldTag y
  · rw [tag_inj_of_pairwise hd x hx y hy hxy]
  · exact applyField_comm z x y hxy

/-- C7: the cache key derived by `getIssues` is a pure function of the
present parameter values: supplying the same fields with the same values in
any order yields the identical key string, so a repeated call resolves to the
same cache entry. -/
theorem getIssues_cacheKey_order_independent (l₁ l₂ : List ParamField)
    (hp : l₁.Perm l₂)
    (hd : l₁.Pairwise (fun a b => fieldTag a ≠ fieldTag b)) :
    getIssuesCacheKey (paramsOfList l₁) = getIssuesCacheKey (paramsOfList l₂)
    := congrArg getIssuesCacheKey (paramsOfList_perm l₁ l₂ hp hd)

/-- C7 witness: the key of `{projectId: 3, pageSize: 2, page: 1}` equals the
key of the reordered `{page: 1, projectId: 3, pageSize: 2}`. -/
theorem getIssues_cacheKey_order_independent_witness :
    getIssuesCacheKey
        (paramsOfList [.projectId 3, .pageSize 2, .page 1]) =
      getIssuesCacheKey
        (paramsOfList [.page 1, .projectId 3, .pageSize 2]) :=
  getIssues_cacheKey_order_independent
    [.projectId 3, .pageSize 2, .page 1]
    [.page 1, .projectId 3, .pageSize 2] (by decide) (by decide)

/-! Claim C8: SOAP issue mapping. -/

/-- C8: `mapSoapIssue` coerces numeric fields with `Number(...) || 0`
semantics — a missing id or a non-numeric id string maps to 0 rather than an
error — and the optional handler, priority, severity and custom-fields
sub-objects are absent in the mapped issue exactly when absent on the wire,
never zero-filled. -/
theorem mapSoapIssue_coercion (item : SoapItem) :
    (item.id = none → (mapSoapIssue item).id = 0)
    ∧ (∀ s, item.id = some (.str s) → jsNumberOfString s = none →
        (mapSoapIssue item).id = 0)
    ∧ ((mapSoapIssue item).handler = none ↔ item.handler = none)
    ∧ ((mapSoapIssue item).priority = none ↔ item.priority = none)
    ∧ ((mapSoapIssue item).severity = none ↔ item.severity = none)
    ∧ ((mapSoapIssue item).custom_fields = none ↔ item.custom_fields = none)
    := by
  refine ⟨?_, ?_, ?_, ?_, ?_, ?_⟩
  · intro h; simp [mapSoapIssue, numOr0, h]
  · intro s hs hn; simp [mapSoapIssue, numOr0, hs, jsNumber, hn]
  · simp [mapSoapIssue]
  · simp [mapSoapIssue]
  · simp [mapSoapIssue]
  · simp [mapSoapIssue]

/-- A wire item whose id is the non-numeric string `abc` and whose optional
sub-objects are all absent. -/
def sampleSoapItem : SoapItem :=
  { id := some (.str "abc"), summary := some "crash", description := none
    status := none, project := none, reporter := none, handler := none
    priority := none, severity := none, category := none
    custom_fields := none, date_submitted := none, last_updated := none }

/-- C8 witness: the non-numeric id string maps to 0 and the absent handler
stays absent. -/
theorem mapSoapIssue_coercion_witness :
    (mapSoapIssue sampleSoapItem).id = 0 ∧
    (mapSoapIssue sampleSoapItem).handler = none := by
  have h := mapSoapIssue_coercion sampleSoapItem
  exact ⟨h.2.1 "abc" rfl (by decide), (h.2.2.1).mpr rfl⟩

/-! Claim C9: getUser rejects a falsy id locally. -/

/-- C9: `getUser 0` throws the local validation error immediately: no network
request is issued, the cache is untouched, and the error statusCode is
undefined, classifying it as a local error. -/
theorem getUser_zero_is_local_error (cfg : Config) (cache : Cache)
    (now nowStore : Nat) (fetch : Except MantisApiError User) :
    getUser cfg cache now nowStore 0 fetch =
      { result := .error ⟨"User ID is required", none, none⟩
        cache := cache, calls := 0 }
    ∧ classifyStatus
        (⟨"User ID is required", none, none⟩ : MantisApiError).statusCode
        = .localError := ⟨rfl, rfl⟩

/-! Claim C10: getUserByUsername and its private 5-minute window. -/

/-- C10: `getUserByUsername` never consults the cache-enablement flag (the
embedded definition takes no `Config` because the source method reads
neither `config.CACHE_ENABLED` nor `config.CACHE_TTL_SECONDS`): a successful
fetch stores the user under `user_<name>` unconditionally, a second call
within the fixed 300000 ms window is served from that entry with no network
request, the entry survives any read-through on a different key under any
configuration, and the full-cache clear performed by mutations removes it. -/
theorem getUserByUsername_fixed_window (cache : Cache)
    (t₀ t₀' t₁ t₁' : Nat) (username : String) (u : User)
    (fetch₂ : Except MantisApiError User)
    (hmiss : Cache.get cache ("user_" ++ username) = none)
    (hage : (t₁ : Int) - t₀' < 300000) :
    (getUserByUsername cache t₀ t₀' username (.ok u)).cache
        = Cache.set cache ("user_" ++ username) ⟨.user u, t₀'⟩
    ∧ (getUserByUsername cache t₀ t₀' username (.ok u)).calls = 1
    ∧ getUserByUsername
          (getUserByUsername cache t₀ t₀' username (.ok u)).cache
          t₁ t₁' username fetch₂ =
        ⟨.ok (.user u),
          (getUserByUsername cache t₀ t₀' username (.ok u)).cache, 0⟩
    ∧ (∀ (cfg : Config) (t t' : Nat) (key' : String)
          (req : Except MantisApiError ApiData),
        key' ≠ "user_" ++ username →
        Cache.get
          (cachedRequest cfg
            (getUserByUsername cache t₀ t₀' username (.ok u)).cache
            t t' key' req).cache ("user_" ++ username)
          = some ⟨.user u, t₀'⟩)
    ∧ Cache.get
        (Cache.clear (getUserByUsername cache t₀ t₀' username (.ok u)).cache)
        ("user_" ++ username) = none := by
  have hfirst :
      (getUserByUsername cache t₀ t₀' username (.ok u)).cache
        = Cache.set cache ("user_" ++ username) ⟨.user u, t₀'⟩ := by
    simp [getUserByUsername, hmiss]
  have hstored :
      Cache.get (getUserByUsername cache t₀ t₀' username (.ok u)).cache
          ("user_" ++ username) = some ⟨.user u, t₀'⟩ := by
    rw [hfirst]; exact Cache.get_set_self cache _ _
  refine ⟨hfirst, ?_, ?_, ?_, ?_⟩
  · simp [getUserByUsername, hmiss]
  · rw [hfirst]
    simp [getUserByUsername, Cache.get_set_self, hage]
  · intro cfg t t' key' req hkey
    rcases hfe : freshEntry cfg
        (getUserByUsername cache t₀ t₀' username (.ok u)).cache t key' with
      _ | d
    · cases req with
      | error e => simpa [cachedRequest, hfe] using hstored
      | ok v =>
          by_cases hc : cfg.CACHE_ENABLED
          · rw [show
              (cachedRequest cfg
                (getUserByUsername cache t₀ t₀' username (.ok u)).cache
                t t' key' (.ok v)).cache
              = Cache.set
                  (getUserByUsername cache t₀ t₀' username (.ok u)).cache
                  key' ⟨v, t'⟩ from by simp [cachedRequest, hfe, hc]]
            rw [Cache.get_set_ne _ _ _ _ (Ne.symm hkey)]
            exact hstored
          · simpa [cachedRequest, hfe, hc] using hstored
    · simpa [cachedRequest, hfe] using hstored
  · rfl

/-- C10 witness: a user fetched at time 0 (stored at 5) is served from the
cache at time 100 with no network request, even though the second producer
would fail. -/
theorem getUserByUsername_fixed_window_witness :
    getUserByUsername
        (getUserByUsername [] 0 5 "alice" (.ok sampleUser)).cache
        100 100 "alice" (.error transportErr) =
      ⟨.ok (.user sampleUser),
        (getUserByUsername [] 0 5 "alice" (.ok sampleUser)).cache, 0⟩ :=
  (getUserByUsername_fixed_window [] 0 5 100 100 "alice" sampleUser
    (.error transportErr) rfl (by decide)).2.2.1

end Mantis
